import Mathlib

/-!
Verification of the document-assembly core of the Question Paper Maker
(src/main.py) against its natural-language specification.

The embedding models:
- the OOXML border-injection helper `set_table_borders` (src/main.py:42-57)
  as explicit manipulation of each cell's `tcPr` child list,
- the transliteration helper `english_to_telugu` (src/main.py:15-37) over a
  small JSON value type with Python-style indexing semantics,
- the authoring-side Match list construction (src/main.py:143-148),
- the generation flow: precondition checks (src/main.py:221-229) and the
  assembly loop (src/main.py:231-268) producing the list of blocks appended
  after the template content.
-/

set_option autoImplicit false

namespace QPaper

/-- Attributes set on one border edge element (`w:top`, `w:left`, `w:bottom`,
`w:right`): the `w:val`, `w:sz`, `w:space`, `w:color` attributes
(src/main.py:51-54). -/
structure OxmlAttrs where
  val : String
  sz : String
  sp : String
  color : String
  deriving DecidableEq, Repr

/-- One child element of a `w:tcBorders` node: a tag (edge name) with its
attributes. -/
abbrev EdgeElem := String × OxmlAttrs

/-- The fixed attribute set the loop body assigns to every edge element:
val="single", sz="12" (1.5pt), space="0", color="000000"
(src/main.py:50-54). -/
def fixedAttrs : OxmlAttrs := ⟨"single", "12", "0", "000000"⟩

/-- The edge order of the loop in `set_table_borders` (src/main.py:49). -/
def edgeNames : List String := ["top", "left", "bottom", "right"]

/-- The `w:tcBorders` element built by the inner loop of `set_table_borders`:
one element per edge, each with the fixed attributes, appended in loop order
(src/main.py:48-55). -/
def mkTcBorders : List EdgeElem := edgeNames.map (fun e => (e, fixedAttrs))

/-- A table cell: its text and the list of `w:tcBorders` children of its
`tcPr` element, in document order.  A cell fresh from `doc.add_table` has
empty text and no `tcBorders` child. -/
structure Cell where
  text : String
  tcPrBorders : List (List EdgeElem)
  deriving DecidableEq, Repr

/-- A table row (python-docx `row.cells`). -/
structure Row where
  cells : List Cell
  deriving DecidableEq, Repr

/-- A table (python-docx `table.rows`). -/
structure Table where
  rows : List Row
  deriving DecidableEq, Repr

/-- `set_table_borders` (src/main.py:42-57): for every cell of every row,
builds a fresh `w:tcBorders` element with the four fixed edges and appends it
to the cell's `tcPr` (`tcPr.append(tcBorders)` — it appends; it does not
replace an existing `tcBorders` child). -/
def set_table_borders (t : Table) : Table :=
  { rows := t.rows.map (fun row =>
      { cells := row.cells.map (fun cell =>
          { cell with tcPrBorders := cell.tcPrBorders ++ [mkTcBorders] }) }) }

/-- Effective `tcBorders` node of a cell: when duplicate `tcBorders` children
are present (schema-invalid in OOXML), the first occurrence in document order
is taken as the effective one. -/
def effectiveTcBorders (c : Cell) : Option (List EdgeElem) :=
  c.tcPrBorders.head?

/-- Effective attributes of one edge of a cell: the attributes of the first
element with that tag inside the effective `tcBorders` node. -/
def effectiveEdge (c : Cell) (edge : String) : Option OxmlAttrs :=
  (effectiveTcBorders c).bind (fun bs =>
    (bs.find? (fun p => p.1 = edge)).map Prod.snd)

/-- The observable border properties of a table: for every cell, the
effective attributes of the four edges. -/
def observableBorders (t : Table) : List (List (List (Option OxmlAttrs))) :=
  t.rows.map (fun row =>
    row.cells.map (fun c => edgeNames.map (effectiveEdge c)))

/-- `doc.add_table(rows=r, cols=c)`: a fresh `r × c` table whose cells have
empty text and no `tcBorders` child. -/
def addTable (r c : Nat) : Table :=
  { rows := (List.range r).map (fun _ =>
      { cells := (List.range c).map (fun _ => { text := "", tcPrBorders := [] }) }) }

/-- The question model: the four shapes of the `question_data` dict
(src/main.py:104-173).  `caption` is always a string in the source (the
text input's value, `""` when left empty). -/
inductive Question where
  | text (content : String)
  | image (imageBytes : List Nat) (caption : String)
  | mtf (left right : List String)
  | table (rowCount colCount : Nat) (data : List (List String))
  deriving DecidableEq, Repr

/-- A structural block appended to the output document: a paragraph, a
table, or an embedded picture (with its display width in EMU). -/
inductive Block where
  | para (text : String)
  | tbl (t : Table)
  | picture (widthEmu : Nat)
  deriving DecidableEq, Repr

/-- python-docx `Inches(n)`: n inches expressed in English Metric Units
(914400 EMU per inch); `Inches(4)` is the fixed picture width at
src/main.py:241. -/
def Inches (n : Nat) : Nat := n * 914400

/-- The match table built at src/main.py:247-255: `add_table` with
`max(len(left), len(right))` rows and 3 columns, then row `r` gets
`left[r]` in column 0 when `r < len(left)` (otherwise the cell keeps
`add_table`'s empty text), the literal `"[   ]"` in column 1, and
`right[r]` in column 2 when `r < len(right)`.  `set_table_borders` is
never called on this table. -/
def buildMatchTable (left right : List String) : Table :=
  { rows := (List.range (max left.length right.length)).map (fun r =>
      { cells := [ { text := left.getD r "", tcPrBorders := [] },
                   { text := "[   ]", tcPrBorders := [] },
                   { text := right.getD r "", tcPrBorders := [] } ] }) }

/-- The answer table population at src/main.py:259-264 (before border
enforcement): cell `(r, c)` gets `data[r][c] if data[r][c] else " "` — by
Python truthiness only the empty string is replaced by a single space.
Out-of-range access is modelled with a `""` default; the authoring surface
(src/main.py:159-166) always supplies a full `rowCount × colCount` grid. -/
def buildAnswerTable (rowCount colCount : Nat) (data : List (List String)) : Table :=
  { rows := (List.range rowCount).map (fun r =>
      { cells := (List.range colCount).map (fun c =>
          let v := (data.getD r []).getD c ""
          { text := if v = "" then " " else v, tcPrBorders := [] }) }) }

/-- One iteration body of the assembly loop (src/main.py:236-266): the
blocks appended for question `q` at 1-based index `i`. -/
def renderQuestion (i : Nat) : Question → List Block
  | .text content =>
      [Block.para (toString i ++ ". " ++ content)]
  | .image _imageBytes caption =>
      [Block.para (toString i ++ "."), Block.picture (Inches 4)]
        ++ (if caption = "" then [] else [Block.para caption])
  | .mtf left right =>
      [Block.para (toString i ++ ". Match the Following:"),
       Block.tbl (buildMatchTable left right)]
  | .table rowCount colCount data =>
      [Block.para (toString i ++ "."),
       Block.tbl (set_table_borders (buildAnswerTable rowCount colCount data))]

/-- The assembly loop (src/main.py:234-268): `for i, q in
enumerate(questions, 1)` renders each question and appends one empty
separator paragraph (`doc.add_paragraph("")`) after it. -/
def assembleLoop : Nat → List Question → List Block
  | _, [] => []
  | i, q :: qs => renderQuestion i q ++ [Block.para ""] ++ assembleLoop (i + 1) qs

/-- The header paragraph appended once before the loop:
`doc.add_paragraph("\nQuestions:\n")` (src/main.py:232). -/
def headerPara : Block := Block.para "\nQuestions:\n"

/-- The blocks appended after the template content by one generation run
(src/main.py:231-268): the section header once, then the numbered entries. -/
def assemble (qs : List Question) : List Block :=
  headerPara :: assembleLoop 1 qs

/-- The uploaded template (an opaque byte blob; its content is preserved
verbatim and out of the model). -/
structure Template where
  bytes : List Nat

/-- The failure modes of the generate button's precondition checks
(src/main.py:223-229). -/
inductive GenError where
  | templateMissing
  | emptyQuestionSet
  deriving DecidableEq, Repr

/-- The generate flow (src/main.py:221-268): `st.stop()` with a warning
when no template was uploaded, then when the question list is empty; only
past both checks is a document built.  An error carries no document: the
run aborts before any output bytes exist. -/
def generate (template : Option Template) (qs : List Question) :
    Except GenError (List Block) :=
  match template with
  | none => Except.error GenError.templateMissing
  | some _ => if qs = [] then Except.error GenError.emptyQuestionSet
              else Except.ok (assemble qs)

/-- A JSON value as far as the transliteration response handling needs:
strings, numbers, arrays (src/main.py:29-34). -/
inductive Json where
  | str (s : String)
  | num (n : Int)
  | arr (xs : List Json)
  deriving Repr

/-- Python subscripting `v[i]` for a non-negative index: indexing a list
yields the element, indexing a string yields a one-character string, and
anything else (or an out-of-range index) raises — modelled as `none`. -/
def pyIndex : Json → Nat → Option Json
  | Json.arr xs, i => xs.get? i
  | Json.str s, i => (s.data.get? i).map (fun ch => Json.str (String.mk [ch]))
  | Json.num _, _ => none

/-- The nested extraction `result[1][0][1][0]` (src/main.py:32); `none`
when any subscript raises. -/
def extractPayload (result : Json) : Option Json :=
  pyIndex result 1 >>= (fun a => pyIndex a 0) >>= (fun b => pyIndex b 1)
    >>= (fun c => pyIndex c 0)

/-- `english_to_telugu` (src/main.py:15-37).  The HTTP layer is abstracted
into `response : Option Json`: `none` means the request or `.json()`
parsing raised.  The `try`/`except Exception` wraps the whole body, so any
subscript that raises falls back to the original text; when
`result[0] == "SUCCESS"` and the nested extraction succeeds the function
returns `result[1][0][1][0]` as-is (the source never checks it is a
string). -/
def english_to_telugu (text : String) (response : Option Json) : Json :=
  match response with
  | none => Json.str text
  | some result =>
    match pyIndex result 0 with
    | none => Json.str text
    | some (Json.str s) =>
      if s = "SUCCESS" then
        match extractPayload result with
        | some payload => payload
        | none => Json.str text
      else Json.str text
    | some _ => Json.str text

/-- The characters Python's `str.strip()` removes (ASCII whitespace; the
inputs here are keyboard text, for which this is the relevant set). -/
def isPySpace (ch : Char) : Bool :=
  ch = ' ' || ch = '\t' || ch = '\n' || ch = '\r' || ch = '\x0b' || ch = '\x0c'

/-- `str.strip()` on a character list: drop leading and trailing
whitespace. -/
def pyStripChars (p : Char → Bool) (l : List Char) : List Char :=
  (((l.dropWhile p).reverse.dropWhile p)).reverse

/-- Python `x.strip()` (src/main.py:146-147). -/
def pyStrip (s : String) : String :=
  String.mk (pyStripChars isPySpace s.data)

/-- Python `s.split("\n")`: split on every newline, keeping empty pieces
(`"".split("\n") == [""]`). -/
def pySplitLines : List Char → List (List Char)
  | [] => [[]]
  | ch :: t =>
    if ch = '\n' then [] :: pySplitLines t
    else
      match pySplitLines t with
      | [] => [[ch]]
      | h :: r => (ch :: h) :: r

/-- The Match list construction (src/main.py:146-147):
`[x.strip() for x in text.split("\n") if x.strip()]` — each line stripped,
blank results dropped. -/
def buildMatchList (input : String) : List String :=
  (pySplitLines input.data).filterMap (fun x =>
    let s := pyStrip (String.mk x)
    if s = "" then none else some s)

/-- The Match `question_data` built by the authoring surface
(src/main.py:143-148). -/
def mkMatchQuestion (leftInput rightInput : String) : Question :=
  Question.mtf (buildMatchList leftInput) (buildMatchList rightInput)

/-- Text of the cell at `(r, c)`, with defaults for out-of-range access. -/
def cellText (t : Table) (r c : Nat) : String :=
  (((t.rows.getD r { cells := [] }).cells.getD c { text := "", tcPrBorders := [] })).text

/-! ### Helper lemmas about the border injection -/

theorem effectiveEdge_mkTcBorders (cell : Cell)
    (hb : cell.tcPrBorders = [mkTcBorders]) :
    ∀ e ∈ edgeNames, effectiveEdge cell e = some fixedAttrs := by
  intro e he
  simp only [edgeNames, List.mem_cons, List.not_mem_nil, or_false] at he
  rcases he with rfl | rfl | rfl | rfl <;>
    simp [effectiveEdge, effectiveTcBorders, hb, mkTcBorders, edgeNames, List.find?]

theorem head?_append_single_pair (b : List (List EdgeElem)) (x : List EdgeElem) :
    ((b ++ [x]) ++ [x]).head? = (b ++ [x]).head? := by
  cases b <;> rfl

/-! ### C1 — border enforcement reaches every edge of every cell -/

/-- C1: for every table passed to `set_table_borders` (in the program these
are always fresh `add_table` results, whose cells carry no `tcBorders`
child yet), after the call every cell of every row has all four edges
(top, left, bottom, right) effectively set to a single-line border with
`w:sz="12"` (1.5pt, since `w:sz` counts eighths of a point),
`w:space="0"`, and color `000000`. -/
theorem C1_apply_sets_all_borders (t : Table)
    (h : ∀ row ∈ t.rows, ∀ cell ∈ row.cells, cell.tcPrBorders = []) :
    ∀ row ∈ (set_table_borders t).rows, ∀ cell ∈ row.cells, ∀ e ∈ edgeNames,
      effectiveEdge cell e = some fixedAttrs := by
  intro row hrow cell hcell e he
  simp only [set_table_borders, List.mem_map] at hrow
  obtain ⟨row0, hrow0, rfl⟩ := hrow
  simp only [List.mem_map] at hcell
  obtain ⟨cell0, hcell0, rfl⟩ := hcell
  have hb := h row0 hrow0 cell0 hcell0
  exact effectiveEdge_mkTcBorders _ (by simp [hb]) e he

/-- Witness for C1: a concrete fresh 2×2 table, with the theorem applied to
its first cell and top edge. -/
theorem C1_apply_sets_all_borders_witness :
    (∀ row ∈ (addTable 2 2).rows, ∀ cell ∈ row.cells, cell.tcPrBorders = [])
    ∧ effectiveEdge { text := "", tcPrBorders := [mkTcBorders] } "top" = some fixedAttrs :=
  ⟨by decide,
   C1_apply_sets_all_borders (addTable 2 2) (by decide)
     { cells := [{ text := "", tcPrBorders := [mkTcBorders] },
                 { text := "", tcPrBorders := [mkTcBorders] }] } (by decide)
     { text := "", tcPrBorders := [mkTcBorders] } (by decide) "top" (by decide)⟩

/-! ### C2 — re-application: same observable borders, but duplicate nodes -/

/-- C2 counterexample: on a fresh 1×1 table, applying `set_table_borders`
twice leaves TWO (identical) `w:tcBorders` nodes in the cell's `tcPr`,
against one after a single application — the helper appends
(`tcPr.append(tcBorders)`, src/main.py:57) and never removes an existing
node, so duplicated border definition nodes do remain in the markup tree,
refuting the claim as stated. -/
theorem C2_counterexample_duplicate_nodes :
    (set_table_borders (set_table_borders (addTable 1 1))).rows.map
        (fun row => row.cells.map Cell.tcPrBorders) = [[[mkTcBorders, mkTcBorders]]]
    ∧ (set_table_borders (addTable 1 1)).rows.map
        (fun row => row.cells.map Cell.tcPrBorders) = [[[mkTcBorders]]]
    ∧ set_table_borders (set_table_borders (addTable 1 1))
        ≠ set_table_borders (addTable 1 1) :=
  ⟨rfl, rfl, by decide⟩

/-- C2 amended: calling `set_table_borders` twice yields the same
observable (effective) border properties as calling it once — the appended
nodes are identical, and duplicate-element resolution picks the first
`tcBorders` child either way — but a duplicate node does remain in each
cell's `tcPr` (see the counterexample). -/
theorem C2_amended_observable_idempotent (t : Table) :
    observableBorders (set_table_borders (set_table_borders t))
      = observableBorders (set_table_borders t) := by
  simp only [observableBorders, set_table_borders, List.map_map]
  apply List.map_congr_left
  intro row _
  simp only [Function.comp, List.map_map]
  apply List.map_congr_left
  intro cell _
  apply List.map_congr_left
  intro e _
  simp only [effectiveEdge, effectiveTcBorders, Function.comp_apply]
  rw [head?_append_single_pair]

/-! ### C3 — shape and content of the rendered Match table -/

/-- C3: a Match question with left list of length `m` and right list of
length `n` renders as a header paragraph plus a table with exactly
`max m n` rows of 3 cells each; in row `r`, column 0 holds `left[r]` when
`r < m` and stays blank (`""`, the `add_table` default) otherwise, column 1
holds the literal `"[   ]"`, and column 2 holds `right[r]` when `r < n` and
stays blank otherwise (src/main.py:245-255). -/
theorem C3_match_rendering (i : Nat) (left right : List String) (r : Nat)
    (hr : r < max left.length right.length) :
    renderQuestion i (Question.mtf left right)
      = [Block.para (toString i ++ ". Match the Following:"),
         Block.tbl (buildMatchTable left right)]
    ∧ (buildMatchTable left right).rows.length = max left.length right.length
    ∧ ((buildMatchTable left right).rows.getD r { cells := [] }).cells.map Cell.text
        = [left.getD r "", "[   ]", right.getD r ""] := by
  refine ⟨rfl, by simp [buildMatchTable], ?_⟩
  simp [buildMatchTable, List.getD_eq_getElem?_getD, List.getElem?_range hr]

/-- Witness for C3: `left = ["a", "b"]`, `right = ["c"]`, row 1 — the right
cell of the second row stays blank. -/
theorem C3_match_rendering_witness :
    1 < max (["a", "b"] : List String).length (["c"] : List String).length
    ∧ (renderQuestion 5 (Question.mtf ["a", "b"] ["c"])
        = [Block.para (toString 5 ++ ". Match the Following:"),
           Block.tbl (buildMatchTable ["a", "b"] ["c"])]
      ∧ (buildMatchTable ["a", "b"] ["c"]).rows.length
          = max (["a", "b"] : List String).length (["c"] : List String).length
      ∧ ((buildMatchTable ["a", "b"] ["c"]).rows.getD 1 { cells := [] }).cells.map Cell.text
          = [(["a", "b"] : List String).getD 1 "", "[   ]",
             (["c"] : List String).getD 1 ""]) :=
  ⟨by decide, C3_match_rendering 5 ["a", "b"] ["c"] 1 (by decide)⟩

/-! ### C4 — borders on Answer Table cells, none on Match cells -/

/-- C4: the Match branch never calls `set_table_borders` — its rendered
table's cells carry no border override at all — while the Answer Table
branch applies `set_table_borders` unconditionally after population, so
every one of its cells has all four edges effectively set to the fixed
single-line border (src/main.py:245-255 vs 257-266). -/
theorem C4_border_asymmetry (i : Nat) (left right : List String)
    (rowCount colCount : Nat) (data : List (List String)) :
    renderQuestion i (Question.mtf left right)
      = [Block.para (toString i ++ ". Match the Following:"),
         Block.tbl (buildMatchTable left right)]
    ∧ (buildMatchTable left right).rows.all (fun row =>
         row.cells.all (fun cell => cell.tcPrBorders.isEmpty)) = true
    ∧ renderQuestion i (Question.table rowCount colCount data)
      = [Block.para (toString i ++ "."),
         Block.tbl (set_table_borders (buildAnswerTable rowCount colCount data))]
    ∧ (set_table_borders (buildAnswerTable rowCount colCount data)).rows.all (fun row =>
         row.cells.all (fun cell => edgeNames.all (fun e =>
           decide (effectiveEdge cell e = some fixedAttrs)))) = true := by
  refine ⟨rfl, ?_, rfl, ?_⟩
  · simp only [List.all_eq_true]
    intro row hrow cell hcell
    simp only [buildMatchTable, List.mem_map] at hrow
    obtain ⟨r, _, rfl⟩ := hrow
    simp only [List.mem_cons, List.not_mem_nil, or_false] at hcell
    rcases hcell with rfl | rfl | rfl <;> rfl
  · simp only [List.all_eq_true, decide_eq_true_eq]
    intro row hrow cell hcell e he
    simp only [set_table_borders, buildAnswerTable, List.map_map, List.mem_map] at hrow
    obtain ⟨r, _, rfl⟩ := hrow
    simp only [Function.comp_apply, List.map_map, List.mem_map] at hcell
    obtain ⟨c, _, rfl⟩ := hcell
    exact effectiveEdge_mkTcBorders _ (by simp) e he

/-! ### C5 — blank-cell rendering in the Answer Table -/

/-- C5 counterexample: the claim says every empty-or-whitespace-only stored
cell renders as a single space; but the source tests Python truthiness
(`q["data"][r][c] if q["data"][r][c] else " "`, src/main.py:263), so the
whitespace-only (non-empty) content `"  "` is truthy and rendered verbatim
as `"  "`, not as the single space `" "`. -/
theorem C5_counterexample_whitespace_cell :
    pyStrip "  " = ""
    ∧ cellText (set_table_borders (buildAnswerTable 1 1 [["  "]])) 0 0 = "  "
    ∧ "  " ≠ " " :=
  ⟨by decide, by decide, by decide⟩

/-- C5 amended: only an empty stored cell (`""`) is rendered as a single
space; any other content — whitespace-only included — is rendered
verbatim.  In all cases the rendered cell text has length at least 1, so
no cell is ever rendered as the empty string. -/
theorem C5_amended_empty_to_space (rowCount colCount : Nat) (data : List (List String))
    (r c : Nat) (hr : r < rowCount) (hc : c < colCount) :
    cellText (set_table_borders (buildAnswerTable rowCount colCount data)) r c
      = (if (data.getD r []).getD c "" = "" then " " else (data.getD r []).getD c "")
    ∧ 1 ≤ (cellText (set_table_borders (buildAnswerTable rowCount colCount data)) r c).length := by
  have hcell : cellText (set_table_borders (buildAnswerTable rowCount colCount data)) r c
      = (if (data.getD r []).getD c "" = "" then " " else (data.getD r []).getD c "") := by
    simp [cellText, set_table_borders, buildAnswerTable, List.map_map,
      List.getD_eq_getElem?_getD, List.getElem?_range hr, List.getElem?_range hc]
  refine ⟨hcell, ?_⟩
  rw [hcell]
  by_cases hv : (data.getD r []).getD c "" = ""
  · rw [if_pos hv]; decide
  · rw [if_neg hv]
    have hd : ((data.getD r []).getD c "").data ≠ [] := by
      intro hnil
      apply hv
      have he : (data.getD r []).getD c ""
          = String.mk ((data.getD r []).getD c "").data := rfl
      rw [he, hnil]
    exact List.length_pos.mpr hd

/-- Witness for C5 (amended): a 1×2 table storing `["", "x"]`; cell (0,0)
renders as a single space. -/
theorem C5_amended_empty_to_space_witness :
    ((0 : Nat) < 1 ∧ (0 : Nat) < 2)
    ∧ (cellText (set_table_borders (buildAnswerTable 1 2 [["", "x"]])) 0 0
        = (if (([["", "x"]] : List (List String)).getD 0 []).getD 0 "" = "" then " "
           else (([["", "x"]] : List (List String)).getD 0 []).getD 0 "")
      ∧ 1 ≤ (cellText (set_table_borders (buildAnswerTable 1 2 [["", "x"]])) 0 0).length) :=
  ⟨⟨by decide, by decide⟩,
   C5_amended_empty_to_space 1 2 [["", "x"]] 0 0 (by decide) (by decide)⟩

/-! ### C6 — assembly structure: header, numbering, separators -/

theorem assembleLoop_eq_enumFrom (i : Nat) (qs : List Question) :
    assembleLoop i qs
      = ((List.enumFrom i qs).map
          (fun p => renderQuestion p.1 p.2 ++ [Block.para ""])).flatten := by
  induction qs generalizing i with
  | nil => rfl
  | cons q t ih =>
    simp [assembleLoop, List.enumFrom, ih (i + 1), List.append_assoc]

/-- C6: for every (also non-empty) question sequence, the appended blocks
are exactly the header paragraph once, at the front, followed by the
per-question segments in order; the segment of the `j`-th question is its
rendering at index `j+1` followed by one empty separator paragraph, and
the sequence of indices used is `1, 2, ..., N` (`List.range' 1 N`) —
1-based, strictly increasing, without gaps, independent of the variant
mix (src/main.py:231-268). -/
theorem C6_assembly_structure (qs : List Question) :
    assemble qs = headerPara ::
      ((List.enumFrom 1 qs).map
        (fun p => renderQuestion p.1 p.2 ++ [Block.para ""])).flatten
    ∧ (List.enumFrom 1 qs).map Prod.fst = List.range' 1 qs.length := by
  refine ⟨?_, List.enumFrom_map_fst 1 qs⟩
  simp [assemble, assembleLoop_eq_enumFrom]

/-! ### C7 — precondition failures produce no document -/

/-- C7: with no template uploaded the run fails with `TemplateMissing`;
with a template but an empty question list it fails with
`EmptyQuestionSet`; in both cases the result carries no document at all —
the run aborts (`st.stop()`) before any output bytes are produced
(src/main.py:221-229). -/
theorem C7_precondition_failures :
    (∀ qs : List Question, generate none qs = Except.error GenError.templateMissing)
    ∧ (∀ t : Template, generate (some t) [] = Except.error GenError.emptyQuestionSet)
    ∧ (∀ qs : List Question, (generate none qs).toOption = none)
    ∧ (∀ t : Template, (generate (some t) []).toOption = none) :=
  ⟨fun _ => rfl, fun _ => rfl, fun _ => rfl, fun _ => rfl⟩

/-! ### C8 — image rendering: numbered paragraph, 4-inch picture, caption -/

/-- C8: an Image question renders as the paragraph `"<index>."`, the
picture embedded at the fixed width `Inches(4)` (4 × 914400 EMU), and a
caption paragraph exactly when the caption is non-empty (the caption is
always a string in the source — the text input's value, `""` when absent)
(src/main.py:239-243). -/
theorem C8_image_rendering (i : Nat) (imageBytes : List Nat) (caption : String) :
    renderQuestion i (Question.image imageBytes caption)
      = [Block.para (toString i ++ "."), Block.picture (Inches 4)]
          ++ (if caption = "" then [] else [Block.para caption])
    ∧ Inches 4 = 4 * 914400
    ∧ (Block.para caption ∈ renderQuestion i (Question.image imageBytes caption)
         ↔ caption ≠ "") := by
  refine ⟨rfl, rfl, ?_⟩
  constructor
  · intro hmem hcap
    subst hcap
    rw [show renderQuestion i (Question.image imageBytes "")
          = [Block.para (toString i ++ "."), Block.picture (Inches 4)] from by
        simp [renderQuestion]] at hmem
    rcases List.mem_cons.mp hmem with h | h
    · have hs : ("" : String) = toString i ++ "." := by injection h
      have hlen : ("" : String).length = (toString i).length + ("." : String).length := by
        rw [hs, String.length_append]
      have h0 : ("" : String).length = 0 := rfl
      have h1 : ("." : String).length = 1 := rfl
      omega
    · rcases List.mem_cons.mp h with h2 | h2
      · exact Block.noConfusion h2
      · simp at h2
  · intro hcap
    simp [renderQuestion, hcap]

/-! ### C9 — transliteration fallback behaviour -/

/-- C9 counterexample: a response with status `"SUCCESS"` but a malformed
payload whose element `result[1][0][1][0]` is the number 7 — an unexpected
response shape — makes `english_to_telugu` return that number as-is
(src/main.py:32 returns it without checking it is a string), not the
original input text, refuting "returns the original input string unchanged
on any failure (… malformed or unexpected response shape …)". -/
theorem C9_counterexample_nonstring_payload :
    english_to_telugu "hello"
        (some (Json.arr [Json.str "SUCCESS",
          Json.arr [Json.arr [Json.str "w", Json.arr [Json.num 7]]]]))
      = Json.num 7
    ∧ Json.num 7 ≠ Json.str "hello" :=
  ⟨rfl, fun h => Json.noConfusion h⟩

/-- C9 amended: `english_to_telugu` never raises (the whole body is inside
`try`/`except Exception`) and returns the original text whenever the
request or JSON parsing raises, the status check `result[0]` raises or is
not the string `"SUCCESS"`, or the nested extraction `result[1][0][1][0]`
raises; when the status is `"SUCCESS"` and the extraction succeeds it
returns that first converted-text element as-is — even when it is not a
string, so a malformed success payload is returned instead of the original
text (see the counterexample). -/
theorem C9_amended_fallback (text : String) (result : Json) :
    english_to_telugu text none = Json.str text
    ∧ (pyIndex result 0 = none → english_to_telugu text (some result) = Json.str text)
    ∧ (∀ s, pyIndex result 0 = some (Json.str s) → s ≠ "SUCCESS" →
        english_to_telugu text (some result) = Json.str text)
    ∧ (∀ n, pyIndex result 0 = some (Json.num n) →
        english_to_telugu text (some result) = Json.str text)
    ∧ (∀ xs, pyIndex result 0 = some (Json.arr xs) →
        english_to_telugu text (some result) = Json.str text)
    ∧ (pyIndex result 0 = some (Json.str "SUCCESS") → extractPayload result = none →
        english_to_telugu text (some result) = Json.str text)
    ∧ (∀ payload, pyIndex result 0 = some (Json.str "SUCCESS") →
        extractPayload result = some payload →
        english_to_telugu text (some result) = payload) := by
  refine ⟨rfl, ?_, ?_, ?_, ?_, ?_, ?_⟩
  · intro h
    simp [english_to_telugu, h]
  · intro s h hs
    simp [english_to_telugu, h, hs]
  · intro n h
    simp [english_to_telugu, h]
  · intro xs h
    simp [english_to_telugu, h]
  · intro h hx
    simp [english_to_telugu, h, hx]
  · intro payload h hx
    simp [english_to_telugu, h, hx]

/-- Witness for C9 (amended): a well-formed success response; the function
returns the first converted-text element. -/
theorem C9_amended_fallback_witness :
    pyIndex (Json.arr [Json.str "SUCCESS",
        Json.arr [Json.arr [Json.str "hello", Json.arr [Json.str "out"]]]]) 0
      = some (Json.str "SUCCESS")
    ∧ extractPayload (Json.arr [Json.str "SUCCESS",
        Json.arr [Json.arr [Json.str "hello", Json.arr [Json.str "out"]]]])
      = some (Json.str "out")
    ∧ english_to_telugu "hello"
        (some (Json.arr [Json.str "SUCCESS",
          Json.arr [Json.arr [Json.str "hello", Json.arr [Json.str "out"]]]]))
      = Json.str "out" :=
  ⟨rfl, rfl,
   (C9_amended_fallback "hello"
       (Json.arr [Json.str "SUCCESS",
         Json.arr [Json.arr [Json.str "hello", Json.arr [Json.str "out"]]]])
     ).2.2.2.2.2.2 (Json.str "out") rfl rfl⟩

/-! ### Helper lemmas about stripping -/

theorem head?_dropWhile_not (p : Char → Bool) :
    ∀ l : List Char, ∀ a ∈ (l.dropWhile p).head?, p a = false := by
  intro l
  induction l with
  | nil => intro a ha; simp at ha
  | cons b t ih =>
    intro a ha
    by_cases hp : p b
    · rw [List.dropWhile_cons, if_pos hp] at ha
      exact ih a ha
    · rw [List.dropWhile_cons, if_neg hp] at ha
      simp only [List.head?_cons, Option.mem_def, Option.some.injEq] at ha
      subst ha
      exact Bool.eq_false_iff.mpr hp

theorem dropWhile_eq_self_of_head (p : Char → Bool) (l : List Char)
    (h : ∀ a ∈ l.head?, p a = false) : l.dropWhile p = l := by
  cases l with
  | nil => rfl
  | cons b t =>
    have hb : p b = false := h b rfl
    rw [List.dropWhile_cons, if_neg (by simp [hb])]

theorem getLast?_dropWhile (p : Char → Bool) :
    ∀ l : List Char, l.dropWhile p ≠ [] → (l.dropWhile p).getLast? = l.getLast? := by
  intro l
  induction l with
  | nil => intro h; exact absurd rfl h
  | cons b t ih =>
    intro h
    by_cases hp : p b
    · rw [List.dropWhile_cons, if_pos hp] at h ⊢
      rw [ih h]
      cases t with
      | nil => exact absurd rfl h
      | cons c u => exact List.getLast?_cons_cons.symm
    · rw [List.dropWhile_cons, if_neg hp]

theorem pyStripChars_getLast (p : Char → Bool) (l : List Char) :
    ∀ a ∈ (pyStripChars p l).getLast?, p a = false := by
  intro a ha
  simp only [Option.mem_def] at ha
  rw [pyStripChars, List.getLast?_reverse] at ha
  exact head?_dropWhile_not p _ a ha

theorem pyStripChars_head (p : Char → Bool) (l : List Char) :
    ∀ a ∈ (pyStripChars p l).head?, p a = false := by
  intro a ha
  simp only [Option.mem_def] at ha
  rw [pyStripChars, List.head?_reverse] at ha
  by_cases hB : (l.dropWhile p).reverse.dropWhile p = []
  · rw [hB] at ha
    exact absurd ha (by simp)
  · rw [getLast?_dropWhile p _ hB, List.getLast?_reverse] at ha
    exact head?_dropWhile_not p l a ha

theorem pyStripChars_eq_self (p : Char → Bool) (l : List Char)
    (h1 : ∀ a ∈ l.head?, p a = false) (h2 : ∀ a ∈ l.getLast?, p a = false) :
    pyStripChars p l = l := by
  rw [pyStripChars, dropWhile_eq_self_of_head p l h1]
  rw [dropWhile_eq_self_of_head p l.reverse (by
    intro a ha
    simp only [Option.mem_def] at ha
    rw [List.head?_reverse] at ha
    exact h2 a ha)]
  exact List.reverse_reverse l

theorem pyStripChars_idem (p : Char → Bool) (l : List Char) :
    pyStripChars p (pyStripChars p l) = pyStripChars p l :=
  pyStripChars_eq_self p _ (pyStripChars_head p l) (pyStripChars_getLast p l)

theorem pyStrip_idem (s : String) : pyStrip (pyStrip s) = pyStrip s := by
  simp only [pyStrip]
  exact congrArg String.mk (pyStripChars_idem isPySpace s.data)

/-! ### C10 — Match lists hold only non-empty stripped strings -/

/-- C10: every element of the left and right lists of a Match question
built by the authoring surface (`[x.strip() for x in text.split("\n") if
x.strip()]`, src/main.py:143-148) is non-empty and already stripped
(stripping it again changes nothing), so no populated Match list element is
ever empty or whitespace-only. -/
theorem C10_match_lists_stripped (leftInput rightInput s : String)
    (h : s ∈ buildMatchList leftInput ∨ s ∈ buildMatchList rightInput) :
    mkMatchQuestion leftInput rightInput
      = Question.mtf (buildMatchList leftInput) (buildMatchList rightInput)
    ∧ s ≠ "" ∧ pyStrip s = s := by
  refine ⟨rfl, ?_⟩
  have key : ∀ input : String, s ∈ buildMatchList input → s ≠ "" ∧ pyStrip s = s := by
    intro input hmem
    rcases List.mem_filterMap.mp hmem with ⟨x, _hx, hfx⟩
    by_cases he : pyStrip (String.mk x) = ""
    · simp [he] at hfx
    · simp only [he, if_neg, ite_false] at hfx
      have hs := Option.some.inj hfx
      subst hs
      exact ⟨he, pyStrip_idem (String.mk x)⟩
  rcases h with h | h
  · exact key leftInput h
  · exact key rightInput h

/-- Witness for C10: concrete inputs with blank and padded lines; the
element `"b c"` of the left list is non-empty and stripped. -/
theorem C10_match_lists_stripped_witness :
    ("b c" ∈ buildMatchList "a\n  \n b c \n" ∨ "b c" ∈ buildMatchList "x ")
    ∧ (mkMatchQuestion "a\n  \n b c \n" "x "
        = Question.mtf (buildMatchList "a\n  \n b c \n") (buildMatchList "x "))
    ∧ "b c" ≠ "" ∧ pyStrip "b c" = "b c" :=
  ⟨Or.inl (by decide),
   C10_match_lists_stripped "a\n  \n b c \n" "x " "b c" (Or.inl (by decide))⟩

end QPaper
